import Mathlib

/-!
Verification of `scan_mangled_genes.py` (mangled gene-identifier scanner).

Shallow embedding of the detection core: the compiled corruption regexes
(`re_all`, lines 23-44), the per-cell classifier `has_mangled` (lines 49-63),
the column selector `select_gene_cols` (lines 77-97), the shape helper
`is_longer` (lines 99-100) and the orchestrator `check_df` (lines 102-120).

Modelling conventions:
* A pandas cell is a tagged value: text, numeric, native datetime, or NaN.
  Each non-empty variant carries its Python `str(...)` form; `str(nan) = "nan"`.
* A DataFrame is a rectangular grid (`Table`) addressed by positional
  row/column labels `0, 1, ...`; `tcell` out of range yields NaN, and all
  operations only touch in-range positions.
* pandas dtype selection (`select_dtypes('object')`, line 85) is modelled by
  `objectCol`: a column is object-dtyped iff it holds a text cell, or mixes
  datetime and numeric cells; an all-numeric, all-datetime or all-NaN column
  gets a specialised dtype and is excluded, as in pandas type inference.
* Python `str.upper` and the regexes act per character; `\d` and `[0-9]` are
  modelled as ASCII digits and `upper` as ASCII uppercasing.
* `Series.apply` / `DataFrame.apply` of the elementwise `has_mangled` are
  modelled per cell; `pandasApply` below additionally records the
  axis-dependent application order used at line 113.
* The float threshold comparison `count > thresh` (line 90) is modelled in ℚ.
-/

/-- Tagged cell value of a loaded table: a text cell, a numeric cell, a cell
Excel stored as a native `datetime.datetime`, or a missing value (NaN).
`text`, `num` and `date` carry the Python `str(...)` form of the value. -/
inductive Cell where
  | text (s : String)
  | num (s : String)
  | date (s : String)
  | empty
deriving DecidableEq

/-- Python `str(x)` for a cell; `str(float('nan'))` is `"nan"`, which is what
`astype(str)` (lines 56 and 88) produces for a missing value. -/
def Cell.pyStr : Cell → String
  | .text s => s
  | .num s => s
  | .date s => s
  | .empty => "nan"

/-- The `isinstance(x, datetime.datetime)` test of line 53. -/
def Cell.isDate : Cell → Bool
  | .date _ => true
  | _ => false

def Cell.isText : Cell → Bool
  | .text _ => true
  | _ => false

def Cell.isNum : Cell → Bool
  | .num _ => true
  | _ => false

/-- The `pd.isnull` test of line 117. -/
def Cell.isNull : Cell → Bool
  | .empty => true
  | _ => false

/-- Python `str.upper()` restricted to ASCII, applied per character. -/
def pyUpper (s : String) : String := String.mk (s.data.map Char.toUpper)

/-- A loaded dataframe: a logical shape and a row-major grid of cells. -/
structure Table where
  nrows : Nat
  ncols : Nat
  data : List (List Cell)
deriving DecidableEq

/-- Cell at row `i`, column `j`; out-of-range positions read as NaN. -/
def tcell (t : Table) (i j : Nat) : Cell := (t.data.getD i []).getD j Cell.empty

/-- Column `j` of the table, top to bottom. -/
def tcol (t : Table) (j : Nat) : List Cell :=
  (List.range t.nrows).map fun i => tcell t i j

/-- The pandas transpose `df.T` (lines 107-108): rows become columns. -/
def ttranspose (t : Table) : Table :=
  ⟨t.ncols, t.nrows, (List.range t.ncols).map fun j => (List.range t.nrows).map fun i => tcell t i j⟩

/-- Number of cells of the frame, `df.size` (line 106). -/
def Table.size (t : Table) : Nat := t.nrows * t.ncols

/-! ### The corruption regexes (`mangled_re` / `re_all`, lines 23-44)

Each alternative of the compiled alternation is hand-compiled to a matcher
on the character list of the cell's string form.  A bounded repetition
`{lo,hi}` becomes a choice among the admissible repetition counts, and
`re.search` semantics ("a match anywhere") become a choice of start position
(`List.tails`).  The `$` of the day-month alternative keeps Python's
semantics: it matches at the end of the string or just before one final
newline. -/

/-- Consume one literal character. -/
def dropLit (ch : Char) : List Char → Option (List Char)
  | c :: l => if c = ch then some l else none
  | [] => none

/-- Consume exactly `k` characters of the class `p`. -/
def dropClass (p : Char → Bool) : Nat → List Char → Option (List Char)
  | 0, l => some l
  | _ + 1, [] => none
  | k + 1, c :: l => if p c then dropClass p k l else none

/-- Consume a literal character sequence. -/
def dropSeq : List Char → List Char → Option (List Char)
  | [], l => some l
  | c :: cs, l => (dropLit c l).bind (dropSeq cs)

/-- Character class `[0,1]` of the second regex alternative: the digits `0`
and `1` and (literally) the comma. -/
def digit01 (c : Char) : Bool := c = '0' || c = ',' || c = '1'

/-- Python `$`: end of the string, or just before a single trailing newline. -/
def atDollar (l : List Char) : Bool := l = [] || l = ['\n']

/-- Alternative 1, `[0-9]{1,2}\/[0-9]{1,2}\/[0-9]{1,4}` (slash date), as a
match starting at the given position. -/
def matchSlashDate (l : List Char) : Bool :=
  [1, 2].any fun a => [1, 2].any fun b => [1, 2, 3, 4].any fun c =>
    ((dropClass Char.isDigit a l).bind fun l1 =>
     (dropLit '/' l1).bind fun l2 =>
     (dropClass Char.isDigit b l2).bind fun l3 =>
     (dropLit '/' l3).bind fun l4 =>
     dropClass Char.isDigit c l4).isSome

/-- Alternative 2, `[0,1]{1,2}-[0-9]{1,2}-\d{2}(?:\d{2})?` (mm-dd date; note
the character class is literally `0`, comma, `1`). -/
def matchDash01 (l : List Char) : Bool :=
  [1, 2].any fun a => [1, 2].any fun b => [2, 4].any fun c =>
    ((dropClass digit01 a l).bind fun l1 =>
     (dropLit '-' l1).bind fun l2 =>
     (dropClass Char.isDigit b l2).bind fun l3 =>
     (dropLit '-' l3).bind fun l4 =>
     dropClass Char.isDigit c l4).isSome

/-- Alternative 3, `[0-9]{1,2}-[0-9]{1,2}-\d{2}(?:\d{2})?` (generic dashed
date). -/
def matchDashDate (l : List Char) : Bool :=
  [1, 2].any fun a => [1, 2].any fun b => [2, 4].any fun c =>
    ((dropClass Char.isDigit a l).bind fun l1 =>
     (dropLit '-' l1).bind fun l2 =>
     (dropClass Char.isDigit b l2).bind fun l3 =>
     (dropLit '-' l3).bind fun l4 =>
     dropClass Char.isDigit c l4).isSome

/-- The month alternation of the fourth regex alternative:
`JAN|...|DEC|[Jj]an|...|[Dd]ec`. -/
def monthAlts : List String :=
  ["JAN", "FEB", "MAR", "APR", "MAY", "JUN", "JUL", "AUG", "SEP", "OCT", "NOV", "DEC",
   "Jan", "jan", "Feb", "feb", "Mar", "mar", "Apr", "apr", "May", "may", "Jun", "jun",
   "Jul", "jul", "Aug", "aug", "Sep", "sep", "Oct", "oct", "Nov", "nov", "Dec", "dec"]

/-- Alternative 4, `[0-9]{1,2}-(?:JAN|...|[Dd]ec)$` (day dash month
abbreviation, anchored at the end of the string). -/
def matchDayMonth (l : List Char) : Bool :=
  [1, 2].any fun a => monthAlts.any fun m =>
    match (dropClass Char.isDigit a l).bind fun l1 =>
          (dropLit '-' l1).bind fun l2 => dropSeq m.data l2 with
    | some rest => atDollar rest
    | none => false

/-- Alternative 5, `[0-9]\.[0-9]{2}E\+[0-9]{2}` (scientific notation). -/
def matchSci (l : List Char) : Bool :=
  ((dropClass Char.isDigit 1 l).bind fun l1 =>
   (dropLit '.' l1).bind fun l2 =>
   (dropClass Char.isDigit 2 l2).bind fun l3 =>
   (dropLit 'E' l3).bind fun l4 =>
   (dropLit '+' l4).bind fun l5 =>
   dropClass Char.isDigit 2 l5).isSome

/-- A match of the combined alternation `re_all` starting at this position. -/
def matchMangledAt (l : List Char) : Bool :=
  matchSlashDate l || matchDash01 l || matchDashDate l || matchDayMonth l || matchSci l

/-- The `ser.str.contains(re_all)` test of line 61 on one string:
`re.search` finds a match of the alternation at some start position. -/
def containsMangled (s : String) : Bool := s.data.tails.any matchMangledAt

/-- Per-cell form of `has_mangled` (lines 49-63), the elementwise classifier:
a native datetime cell is always mangled (line 53); otherwise the cell's
string form is blanked when longer than `maxcell` (line 58) and then tested
against the combined regex (line 61); the two detections are or-ed (line 63). -/
def has_mangled (c : Cell) (maxcell : Nat := 20) : Bool :=
  let detect_dt := c.isDate
  let s := c.pyStr
  let s2 := if s.length > maxcell then "" else s
  containsMangled s2 || detect_dt

/-- The unused fraction helper `count_names` (lines 65-68): the fraction of
cells of the series whose value is in `genes` (no case normalisation here). -/
def count_names (cells : List Cell) (genes : List String) : ℚ :=
  if cells.length = 0 then 0
  else ((cells.filter fun c => genes.contains c.pyStr).length : ℚ) / (cells.length : ℚ)

/-- The `df_str.isin(genes)` test of lines 88-89 on one cell: the uppercased
string form of the cell is a member of the (already uppercased) reference
list. -/
def isGene (genes : List String) (c : Cell) : Bool := genes.contains (pyUpper c.pyStr)

/-- The `select_dtypes('object')` restriction of line 85 on one column:
pandas infers the catch-all object dtype when the column holds a text cell
or mixes datetime and numeric cells; purely numeric, purely datetime and
all-NaN columns get a specialised dtype and are dropped. -/
def objectCol (cells : List Cell) : Bool :=
  cells.any Cell.isText || (cells.any Cell.isDate && cells.any Cell.isNum)

/-- Default selection threshold of line 77 (`thresh=0.2`). -/
def defaultThresh : ℚ := mkRat 1 5

/-- The column labels selected at line 90: object-dtyped columns whose
NUMBER of reference-matching cells (`df_is_gene.sum(axis=0)`) exceeds
`thresh` — the sum of a boolean column is a count, not a fraction. -/
def gene_cols (t : Table) (genes : List String) (thresh : ℚ) : List Nat :=
  (List.range t.ncols).filter fun j =>
    objectCol (tcol t j) &&
      decide (thresh < ((((tcol t j).filter (isGene genes)).length : Nat) : ℚ))

/-- The masking of line 95 (`df.mask(df_is_gene, "")`) on one cell. -/
def maskCell (genes : List String) (c : Cell) : Cell :=
  if isGene genes c then Cell.text "" else c

/-- The `fillna('')` of line 110 on one cell. -/
def fillCell (c : Cell) : Cell := if c.isNull then Cell.text "" else c

/-- The sub-table returned by `select_gene_cols` (lines 77-97): the selected
columns of the frame, copied, with reference-matching cells masked to `""`
when `mask` is set. -/
def select_gene_cols (t : Table) (genes : List String)
    (mask : Bool := true) (thresh : ℚ := defaultThresh) : Table :=
  ⟨t.nrows, (gene_cols t genes thresh).length,
    (List.range t.nrows).map fun i =>
      (gene_cols t genes thresh).map fun j =>
        if mask then maskCell genes (tcell t i j) else tcell t i j⟩

/-- Lines 99-100: `df.shape[0] > df.shape[1]`. -/
def is_longer (t : Table) : Bool := decide (t.nrows > t.ncols)

/-- The `axis=int(is_longer(df))` argument of line 113.  The `df` there is
the FULL input frame, not the selected sub-table. -/
def check_axis (t : Table) : Nat := if is_longer t then 1 else 0

/-- Per-cell pipeline a sub-table cell undergoes before classification in
`check_df`: the mask of line 95 followed by the `fillna('')` of line 110,
then `has_mangled`. -/
def detectCell (genes : List String) (c : Cell) : Bool :=
  has_mangled (fillCell (maskCell genes c))

/-- The boolean detection frame `df_detect` of line 113, read at an original
position `(i, j)` of the input table, with the alignment `df[df_detect]` of
line 116 built in: positions with no label in `df_detect` read as `false`.
When the column-oriented selection is empty (line 106), `df_detect` is the
transposed evaluation of lines 107-108: its row labels are the rows selected
on `df.T` and its column labels all columns of `df`.  `has_mangled` is
elementwise, so the `axis` of line 113 does not alter the resulting frame
(theorem `pandasApply_axis_irrelevant` below). -/
def detect_pos (t : Table) (genes : List String) (i j : Nat) : Bool :=
  if (select_gene_cols t genes).size = 0 then
    (gene_cols (ttranspose t) genes defaultThresh).contains i &&
      decide (j < t.ncols) && detectCell genes (tcell t i j)
  else
    decide (i < t.nrows) && (gene_cols t genes defaultThresh).contains j &&
      detectCell genes (tcell t i j)

/-- The orchestrator `check_df` (lines 102-120): the flagged-cell count
`df_detect.values.sum()` and the flagged-value list
`df[df_detect].values[~isnull].tolist()` — the original, unmasked values at
flagged positions, flattened from a row-major `.values` array with nulls
dropped. -/
def check_df (t : Table) (genes : List String) : Nat × List Cell :=
  let count := ((List.range t.nrows).map fun i =>
    ((List.range t.ncols).filter fun j => detect_pos t genes i j).length).sum
  let found := (List.range t.nrows).flatMap fun i =>
    (List.range t.ncols).filterMap fun j =>
      if detect_pos t genes i j && !(tcell t i j).isNull then some (tcell t i j) else none
  (count, found)

/-- All positions of the table in the row-major order of a `.values` array. -/
def rowMajorPairs (t : Table) : List (Nat × Nat) :=
  (List.range t.nrows).flatMap fun i => (List.range t.ncols).map fun j => (i, j)

/-- The sub-table `df_sub` actually scanned by `check_df` after the
orientation fallback of lines 105-108. -/
def subUsed (t : Table) (genes : List String) : Table :=
  if (select_gene_cols t genes).size = 0 then
    ttranspose (select_gene_cols (ttranspose t) genes)
  else select_gene_cols t genes

/-! ### Axis-dependent application (`DataFrame.apply` at line 113)

`df.apply(f, axis=1)` hands `f` each row and reassembles the per-row results
as the rows of the output frame; `axis=0` hands `f` each column and
reassembles the per-column results as the columns of the output frame.  For
the elementwise `has_mangled` the two assemblies coincide, which is why
`detect_pos` above needs no axis argument. -/

/-- Application of an elementwise classifier to each row (`axis=1`). -/
def gridRowwise (f : Cell → Bool) (sub : Table) : List (List Bool) :=
  (List.range sub.nrows).map fun i => (List.range sub.ncols).map fun j => f (tcell sub i j)

/-- Application of an elementwise classifier to each column (`axis=0`),
reassembled into the row-major output frame. -/
def gridColwise (f : Cell → Bool) (sub : Table) : List (List Bool) :=
  (List.range sub.nrows).map fun i =>
    ((List.range sub.ncols).map fun j =>
      (List.range sub.nrows).map fun i2 => f (tcell sub i2 j)).map fun colv => colv.getD i false

/-- The `df_sub.apply(has_mangled, axis=...)` call of line 113, with the axis
explicit. -/
def pandasApply (axis : Nat) (f : Cell → Bool) (sub : Table) : List (List Bool) :=
  if axis = 1 then gridRowwise f sub else gridColwise f sub

/-! ### Spec-side definitions (for comparison against the source)

These follow the words of the specification, not the code, and exist only to
be measured against the source-derived definitions above. -/

/-- Modelled from the spec: the "gene score" of a column as the spec words
it — the FRACTION of the column's cells whose uppercased string form is a
member of the reference set. -/
def specGeneScore (t : Table) (j : Nat) (genes : List String) : ℚ :=
  if t.nrows = 0 then 0
  else ((((tcol t j).filter (isGene genes)).length : Nat) : ℚ) / ((t.nrows : Nat) : ℚ)

/-- Modelled from the spec: the scan axis the spec prescribes — chosen from
the shape of the SELECTED SUB-TABLE: strictly more rows than columns means
the column-wise pass (`axis=1` in the code's encoding), otherwise the
row-wise pass (`axis=0`). -/
def specAxisRule (t : Table) (genes : List String) : Nat :=
  if (subUsed t genes).nrows > (subUsed t genes).ncols then 1 else 0

/-- Modelled from the spec: the flagged-value list collected in COLUMN-MAJOR
traversal order (the order the spec prescribes when the column-wise scan
axis is chosen), with null originals excluded. -/
def specFoundColMajor (t : Table) (genes : List String) : List Cell :=
  (List.range t.ncols).flatMap fun j =>
    (List.range t.nrows).filterMap fun i =>
      if detect_pos t genes i j && !(tcell t i j).isNull then some (tcell t i j) else none

/-! ### State-threading model of the in-place operations

`select_gene_cols` copies the selected columns (line 92, `.copy()`) before
the in-place mask of line 95, so the mask mutates the copy; the in-place
`fillna` of line 110 mutates that same copy (`df_sub`), and in the
orientation fallback the frame handed to `select_gene_cols` is the fresh
transpose of line 107, never the caller's frame.  The `_state` functions
make the caller's frame explicit: each returns its result paired with the
caller's dataframe as the call leaves it. -/

/-- Result of `select_gene_cols` paired with the caller's frame after the
call: the line-95 mask is applied to the line-92 copy, so the caller's frame
flows through untouched. -/
def select_gene_cols_state (t : Table) (genes : List String) : Table × Table :=
  (select_gene_cols t genes, t)

/-- Result of `check_df` paired with the caller's frame after the call.  The
only in-place operations (lines 95 and 110) act on the copy `df_sub`, and
line 107 operates on a fresh transposed frame, so the caller's frame is the
one `select_gene_cols_state` threads through. -/
def check_df_state (t : Table) (genes : List String) : (Nat × List Cell) × Table :=
  let s1 := select_gene_cols_state t genes
  (check_df s1.2 genes, s1.2)

/-! ### Concrete tables used by counterexamples and witnesses -/

/-- One text column of six cells, exactly one of which is the reference
identifier: match count 1, match fraction 1/6. -/
def tblFrac : Table :=
  ⟨6, 1, [[Cell.text "G"], [Cell.text "a"], [Cell.text "b"],
          [Cell.text "c"], [Cell.text "d"], [Cell.text "e"]]⟩

/-- A square 3x3 table whose first column holds a reference identifier, so
the selected sub-table is the tall 3x1 first column. -/
def tblSquare : Table :=
  ⟨3, 3, [[Cell.text "G", Cell.text "u", Cell.text "v"],
          [Cell.text "h", Cell.text "u", Cell.text "v"],
          [Cell.text "k", Cell.text "u", Cell.text "v"]]⟩

/-- A tall 3x2 table with both columns selected and one mangled value in
each column, at transposed positions (0,1) and (1,0): the row-major and
column-major collection orders differ. -/
def tblOrder : Table :=
  ⟨3, 2, [[Cell.text "G", Cell.text "1.23E+10"],
          [Cell.text "03/04/2021", Cell.text "G"],
          [Cell.text "x", Cell.text "y"]]⟩

/-- A tall 3x2 table with the same first column as `tblSquare` and a
non-matching second column: its selected sub-table is IDENTICAL to the one
of `tblSquare`, but the full table is longer than wide. -/
def tblTall : Table :=
  ⟨3, 2, [[Cell.text "G", Cell.text "u"],
          [Cell.text "h", Cell.text "u"],
          [Cell.text "k", Cell.text "u"]]⟩

/-- A wide 2x3 table whose selected sub-table is the square 2x2 block of
its first two columns, with mangled values at transposed positions (0,1)
and (1,0). -/
def tblWide : Table :=
  ⟨2, 3, [[Cell.text "G", Cell.text "1.23E+10", Cell.text "u"],
          [Cell.text "03/04/2021", Cell.text "G", Cell.text "v"]]⟩

/-- A one-row table whose only reference match is a NUMERIC cell: its column
is not object-dtyped, so no column is selected, but the row (transposed
evaluation) is; the row also carries a mangled text value. -/
def tblRowOnly : Table :=
  ⟨1, 3, [[Cell.num "7", Cell.text "1-MAR", Cell.text "x"]]⟩

/-- A table in which nothing is selected in either orientation. -/
def tblNone : Table := ⟨1, 1, [[Cell.text "x"]]⟩

/-! ### Helper lemmas -/

theorem gridColwise_eq_gridRowwise (f : Cell → Bool) (sub : Table) :
    gridColwise f sub = gridRowwise f sub := by
  unfold gridColwise gridRowwise
  refine List.map_congr_left fun i hi => ?_
  rw [List.map_map]
  refine List.map_congr_left fun j hj => ?_
  simp [List.getD_eq_getElem?_getD, List.getElem?_map, List.getElem?_range, List.mem_range.mp hi]

theorem filterMap_if_eq {α β : Type} (p : α → Bool) (f : α → β) (l : List α) :
    (l.filterMap fun a => if p a then some (f a) else none) = (l.filter p).map f := by
  induction l with
  | nil => rfl
  | cons a l ih =>
    by_cases h : p a = true
    · simp [List.filterMap_cons, List.filter_cons, h, ih]
    · simp [List.filterMap_cons, List.filter_cons, h, ih]

theorem found_eq_rowMajor (t : Table) (genes : List String) :
    (check_df t genes).2 =
      ((rowMajorPairs t).filter fun p =>
        detect_pos t genes p.1 p.2 && !(tcell t p.1 p.2).isNull).map fun p =>
          tcell t p.1 p.2 := by
  show ((List.range t.nrows).flatMap fun i =>
      (List.range t.ncols).filterMap fun j =>
        if detect_pos t genes i j && !(tcell t i j).isNull
        then some (tcell t i j) else none) = _
  rw [rowMajorPairs, List.filter_flatMap, List.map_flatMap]
  refine congrArg _ (funext fun i => ?_)
  rw [filterMap_if_eq, List.filter_map, List.map_map]
  rfl

theorem count_eq_rowMajor (t : Table) (genes : List String) :
    (check_df t genes).1 =
      ((rowMajorPairs t).filter fun p => detect_pos t genes p.1 p.2).length := by
  show ((List.range t.nrows).map fun i =>
      ((List.range t.ncols).filter fun j => detect_pos t genes i j).length).sum = _
  rw [rowMajorPairs, List.filter_flatMap, List.length_flatMap]
  refine congrArg List.sum (List.map_congr_left fun i hi => ?_)
  show _ = (List.length ∘ fun i => _) i
  simp only [Function.comp_apply, List.filter_map, List.length_map]
  rfl

theorem detect_pos_true_detectCell {t : Table} {genes : List String} {i j : Nat}
    (h : detect_pos t genes i j = true) : detectCell genes (tcell t i j) = true := by
  unfold detect_pos at h
  by_cases hc : (select_gene_cols t genes).size = 0
  · rw [if_pos hc] at h
    simp only [Bool.and_eq_true] at h
    exact h.2
  · rw [if_neg hc] at h
    simp only [Bool.and_eq_true] at h
    exact h.2

theorem detectCell_of_isGene {genes : List String} {c : Cell}
    (h : isGene genes c = true) : detectCell genes c = false := by
  have hmask : maskCell genes c = Cell.text "" := by simp [maskCell, h]
  have : detectCell genes c = has_mangled (fillCell (Cell.text "")) := by
    rw [detectCell, hmask]
  rw [this]
  decide

theorem check_df_state_frame (t : Table) (genes : List String) :
    (check_df_state t genes).2 = t := rfl

/-! ### Claim theorems -/

/-- C1 counterexample: the first (and only) column of `tblFrac` is selected
by `select_gene_cols` at the default threshold although its gene score — the
fraction of its cells whose uppercased string form is in the reference set —
is 1/6, which does NOT exceed 0.2.  Line 90 compares the MATCH COUNT, not
the fraction, against the threshold. -/
theorem C1_counterexample :
    0 ∈ gene_cols tblFrac ["G"] defaultThresh ∧
      ¬ defaultThresh < specGeneScore tblFrac 0 ["G"] := by
  refine ⟨by decide, ?_⟩
  have h1 : ((tcol tblFrac 0).filter (isGene ["G"])).length = 1 := by decide
  have h2 : tblFrac.nrows = 6 := rfl
  have h3 : specGeneScore tblFrac 0 ["G"] = 1 / 6 := by
    rw [specGeneScore, h2, h1]
    norm_num
  rw [h3, defaultThresh]
  rw [Rat.mkRat_eq_div]
  norm_num

/-- C1 (amended): a column is selected by `select_gene_cols` iff it exists,
is object-dtyped, and its NUMBER of reference-matching cells strictly
exceeds the threshold (so at the default 0.2 one single matching cell
selects the column, whatever the fraction). -/
theorem C1_selection_characterisation (t : Table) (genes : List String) (thresh : ℚ) (j : Nat) :
    j ∈ gene_cols t genes thresh ↔
      j < t.ncols ∧ objectCol (tcol t j) = true ∧
        thresh < ((((tcol t j).filter (isGene genes)).length : Nat) : ℚ) := by
  simp [gene_cols, List.mem_filter, List.mem_range, Bool.and_eq_true, and_assoc]

/-- C2 counterexample: `tblSquare` and `tblTall` have IDENTICAL selected
sub-tables (the same tall 3x1 masked column), yet `check_df` scans them
with different axes, because the `axis=int(is_longer(df))` of line 113 is
computed on the FULL table — so the scan axis is not chosen from the shape
of the selected sub-table under any reading of the shape rule.  In the
code's own encoding the sub-table shape rule would prescribe `axis=1` on
`tblSquare`, while line 113 passes `axis=0`. -/
theorem C2_counterexample :
    subUsed tblSquare ["G"] = subUsed tblTall ["G"] ∧
      check_axis tblSquare ≠ check_axis tblTall ∧
        check_axis tblSquare ≠ specAxisRule tblSquare ["G"] := by decide

/-- C2 (amended): the scan axis is chosen from the shape of the FULL input
table — `axis=1` exactly when the full table has strictly more rows than
columns — and, the classifier being elementwise, applying it along either
axis of the scanned sub-table yields the same detection frame. -/
theorem C2_axis_from_full_table (t : Table) (genes : List String) :
    (check_axis t = 1 ↔ t.nrows > t.ncols) ∧
      pandasApply (check_axis t) (fun c => has_mangled c) (subUsed t genes) =
        gridRowwise (fun c => has_mangled c) (subUsed t genes) := by
  constructor
  · by_cases h : t.nrows > t.ncols <;> simp [check_axis, is_longer, h]
  · by_cases h : check_axis t = 1
    · simp [pandasApply, h]
    · simp [pandasApply, h, gridColwise_eq_gridRowwise]

/-- C3 counterexample: lines 116-118 flatten a row-major `.values` array,
whatever the axis: both on the tall sub-table of `tblOrder` (strictly more
rows than columns) and on the square sub-table of `tblWide` (not more rows
than columns) the `found` list differs from the column-major collection —
so whichever of the two shape classes the claimed axis rule maps to
column-major traversal, that class contains a table on which the order is
row-major instead. -/
theorem C3_counterexample :
    ((subUsed tblOrder ["G"]).ncols < (subUsed tblOrder ["G"]).nrows ∧
      (check_df tblOrder ["G"]).2 ≠ specFoundColMajor tblOrder ["G"]) ∧
    (¬ (subUsed tblWide ["G"]).ncols < (subUsed tblWide ["G"]).nrows ∧
      (check_df tblWide ["G"]).2 ≠ specFoundColMajor tblWide ["G"]) := by
  exact ⟨⟨by decide, by decide⟩, ⟨by decide, by decide⟩⟩

/-- C3 (amended): the `found` list holds the original, unmasked cell values
at flagged positions with empty/null originals excluded, but ALWAYS in the
row-major traversal order of the original table, regardless of the scan
axis. -/
theorem C3_found_is_rowMajor (t : Table) (genes : List String) :
    (check_df t genes).2 =
      ((rowMajorPairs t).filter fun p =>
        detect_pos t genes p.1 p.2 && !(tcell t p.1 p.2).isNull).map fun p =>
          tcell t p.1 p.2 :=
  found_eq_rowMajor t genes

/-- C4: when the column-oriented selection is empty, `check_df` evaluates
the logically transposed table — the flagged positions are those whose ROW
is selected by running the selector on the transpose — and both the count
and the `found` list are reported against original (untransposed) cell
positions, `found` holding the original literal values. -/
theorem C4_orientation_fallback (t : Table) (genes : List String)
    (h : (select_gene_cols t genes).size = 0) :
    (check_df t genes).2 =
      ((rowMajorPairs t).filter fun p =>
        ((gene_cols (ttranspose t) genes defaultThresh).contains p.1 &&
          decide (p.2 < t.ncols) && detectCell genes (tcell t p.1 p.2)) &&
          !(tcell t p.1 p.2).isNull).map (fun p => tcell t p.1 p.2) ∧
    (check_df t genes).1 =
      ((rowMajorPairs t).filter fun p =>
        (gene_cols (ttranspose t) genes defaultThresh).contains p.1 &&
          decide (p.2 < t.ncols) && detectCell genes (tcell t p.1 p.2)).length := by
  constructor
  · rw [found_eq_rowMajor]
    simp only [detect_pos, h, if_pos]
  · rw [count_eq_rowMajor]
    simp only [detect_pos, h, if_pos]

/-- C4 witness: on `tblRowOnly` no column is selected (its only reference
match is numeric, hence in a non-object column) but its row is; the scan
flags the mangled original value of that row. -/
theorem C4_witness :
    (check_df tblRowOnly ["7"]).2 = [Cell.text "1-MAR"] ∧ (check_df tblRowOnly ["7"]).1 = 1 := by
  have h := C4_orientation_fallback tblRowOnly ["7"] (by decide)
  exact ⟨h.1.trans (by decide), h.2.trans (by decide)⟩

/-- C5: with masking on (as `check_df` always runs it), a value whose
uppercased string form is an exact member of the reference set never
appears in the `found` list: every reference-matching cell of the scanned
sub-table is masked to the empty string before classification, and the
empty string matches no corruption pattern. -/
theorem C5_masked_never_found (t : Table) (genes : List String) (c : Cell)
    (h : c ∈ (check_df t genes).2) : isGene genes c = false := by
  rw [found_eq_rowMajor] at h
  rcases List.mem_map.mp h with ⟨p, hp, hv⟩
  rcases List.mem_filter.mp hp with ⟨-, hflag⟩
  simp only [Bool.and_eq_true] at hflag
  have hdet : detectCell genes (tcell t p.1 p.2) = true :=
    detect_pos_true_detectCell hflag.1
  by_contra hne
  have hg : isGene genes c = true := by
    cases hgc : isGene genes c
    · exact absurd hgc hne
    · rfl
  rw [← hv] at hg
  rw [detectCell_of_isGene hg] at hdet
  exact Bool.false_ne_true hdet

/-- C5 witness: `tblRowOnly` scanned against the reference set containing
exactly the string form of its numeric cell: the flagged value `1-MAR` is
in `found` and is not a reference match. -/
theorem C5_witness :
    Cell.text "1-MAR" ∈ (check_df tblRowOnly ["7"]).2 ∧
      isGene ["7"] (Cell.text "1-MAR") = false :=
  ⟨by decide, C5_masked_never_found tblRowOnly ["7"] (Cell.text "1-MAR") (by decide)⟩

/-- C6: the classifier flags each of the four corruption examples given as
text cells, and flags every native datetime cell whatever its string form. -/
theorem C6_pattern_coverage :
    has_mangled (Cell.text "03/04/2021") = true ∧
    has_mangled (Cell.text "12-25-19") = true ∧
    has_mangled (Cell.text "1-MAR") = true ∧
    has_mangled (Cell.text "1.23E+10") = true ∧
    ∀ s : String, has_mangled (Cell.date s) = true := by
  refine ⟨by decide, by decide, by decide, by decide, fun s => ?_⟩
  simp [has_mangled, Cell.isDate]

/-- C7: a cell that is not natively date-typed and whose string form is
longer than the max-cell threshold is never flagged — the string is blanked
before the regex is consulted, so even an embedded pattern match is
ignored. -/
theorem C7_length_prefilter (c : Cell) (maxcell : Nat)
    (h1 : c.isDate = false) (h2 : maxcell < c.pyStr.length) :
    has_mangled c maxcell = false := by
  have he : containsMangled "" = false := by decide
  simp [has_mangled, h1, h2, he]

/-- C7 witness: a 21-character text cell that CONTAINS a slash-date pattern
is not flagged at the default threshold 20. -/
theorem C7_witness :
    (Cell.text "xxxxxxxxxxx03/04/2021").isDate = false ∧
    20 < (Cell.text "xxxxxxxxxxx03/04/2021").pyStr.length ∧
    containsMangled (Cell.text "xxxxxxxxxxx03/04/2021").pyStr = true ∧
    has_mangled (Cell.text "xxxxxxxxxxx03/04/2021") 20 = false :=
  ⟨rfl, by decide, by decide,
    C7_length_prefilter (Cell.text "xxxxxxxxxxx03/04/2021") 20 rfl (by decide)⟩

/-- C8: when neither orientation selects anything, the scan degrades to the
zero result `(0, [])` instead of raising. -/
theorem C8_empty_selection_zero_result (t : Table) (genes : List String)
    (h1 : gene_cols t genes defaultThresh = [])
    (h2 : gene_cols (ttranspose t) genes defaultThresh = []) :
    check_df t genes = (0, []) := by
  have hz : (select_gene_cols t genes).size = 0 := by
    simp [select_gene_cols, Table.size, h1]
  have hd : ∀ i j, detect_pos t genes i j = false := by
    intro i j
    simp [detect_pos, hz, h2]
  rw [check_df]
  simp [hd, List.sum_eq_zero]

/-- C8 witness: a table with one non-matching text cell yields `(0, [])`. -/
theorem C8_witness : check_df tblNone ["G"] = (0, []) :=
  C8_empty_selection_zero_result tblNone ["G"] (by decide) (by decide)

/-- C9: the scan is deterministic and idempotent — run on the table as the
first scan leaves it, a second scan returns the identical count and the
identical ordered value list, and the threaded table state is unchanged. -/
theorem C9_scan_idempotent (t : Table) (genes : List String) :
    check_df ((check_df_state t genes).2) genes = check_df t genes ∧
      check_df_state ((check_df_state t genes).2) genes = check_df_state t genes := by
  rw [check_df_state_frame]
  exact ⟨rfl, rfl⟩

/-- C10: the scan leaves the caller's table untouched: the in-place mask
(line 95) and `fillna` (line 110) act on the copy made at line 92, so after
`check_df` returns every cell of the caller's table equals its pre-scan
value. -/
theorem C10_input_table_unchanged (t : Table) (genes : List String) :
    (∀ i j, tcell ((check_df_state t genes).2) i j = tcell t i j) ∧
      (check_df_state t genes).2 = t :=
  ⟨fun i j => by rw [check_df_state_frame], check_df_state_frame t genes⟩
